import Mathlib

/-!
Shallow embedding of the rendering engine of `shaderDemo`
(src/computeRenderer/Renderer.cpp, with the simpler variant in
src/render/Renderer.cpp modelled where a claim cites it).

GPU calls are modelled by their resource-accounting effect: EGL display /
surface / context liveness, and counters of live GL shader, program and
texture objects.  GL objects are owned by the EGL context that created
them, so `eglDestroyContext` releases every GL object of that context.
Fallible GL/EGL calls are driven by an oracle record of booleans saying
which call succeeds, so every failure path of the C++ code is reachable
in the model.  Interleavings of the UI thread (togglePause, stepForward,
stepBackward) with the render thread are modelled by sequential
composition of the API functions with the loop-body function
`renderTick`; each tick takes one boolean `elapsed` standing for the
test `elapsedTime >= frameTime`.
-/

namespace ShaderDemo

/-- Count of live GL objects, all owned by the current EGL context
(src/computeRenderer/Renderer.cpp creates them all in the one context
made by `start`). -/
structure GlObjects where
  shaders : Nat
  programs : Nat
  textures : Nat
  deriving DecidableEq, Repr

/-- Liveness of the EGL-level resources of the renderer.
`displayInit` is true between a successful `eglInitialize` and the
matching `eglTerminate`. -/
structure EglWorld where
  displayInit : Bool
  surfaceLive : Bool
  contextLive : Bool
  gl : GlObjects
  deriving DecidableEq, Repr

/-- The world of a renderer that holds no GPU resource at all. -/
def emptyWorld : EglWorld := ⟨false, false, false, ⟨0, 0, 0⟩⟩

/-- `eglDestroyContext`: the context dies and with it every GL object it
owns (GL semantics: deleting a context frees its non-shared objects). -/
def destroyContextW (w : EglWorld) : EglWorld :=
  { w with contextLive := false, gl := ⟨0, 0, 0⟩ }

/-- State of the renderer object (fields of class Renderer in
src/computeRenderer/Renderer.h that the claims are about, plus the
resource world).  `imageCount` is `imageNames.size()`. -/
structure Renderer where
  running : Bool
  paused : Bool
  shouldStepForward : Bool
  shouldStepBackward : Bool
  currentImageIndex : Nat
  imageCount : Nat
  world : EglWorld
  deriving DecidableEq, Repr

namespace Renderer

/-- Renderer::togglePause (src/computeRenderer/Renderer.cpp:152-155). -/
def togglePause (r : Renderer) : Renderer :=
  { r with paused := !r.paused }

/-- Renderer::isPaused (src/computeRenderer/Renderer.cpp:171-173). -/
def isPaused (r : Renderer) : Bool :=
  r.paused

/-- Renderer::stepForward (src/computeRenderer/Renderer.cpp:157-162):
only sets the flag when paused. -/
def stepForward (r : Renderer) : Renderer :=
  if r.paused then { r with shouldStepForward := true } else r

/-- Renderer::stepBackward (src/computeRenderer/Renderer.cpp:164-169). -/
def stepBackward (r : Renderer) : Renderer :=
  if r.paused then { r with shouldStepBackward := true } else r

/-- Renderer::nextFrame (src/computeRenderer/Renderer.cpp:566-576):
advance modulo the sequence length; no-op on an empty sequence.
(The texture re-upload `updateTexture` has no effect on this state.) -/
def nextFrame (r : Renderer) : Renderer :=
  if r.imageCount = 0 then r
  else { r with currentImageIndex := (r.currentImageIndex + 1) % r.imageCount }

/-- Renderer::previousFrame (src/computeRenderer/Renderer.cpp:578-592):
wrap from 0 to N-1, otherwise decrement. -/
def previousFrame (r : Renderer) : Renderer :=
  if r.imageCount = 0 then r
  else if r.currentImageIndex = 0 then
    { r with currentImageIndex := r.imageCount - 1 }
  else
    { r with currentImageIndex := r.currentImageIndex - 1 }

/-- One GPU-visible action of a loop iteration: the compute (per-pixel
transform) dispatch, the full-viewport quad draw sampling the output
texture, and the `eglSwapBuffers` presentation. -/
inductive FrameAction where
  | transform
  | composite
  | present
  deriving DecidableEq, Repr

/-- Step-flag consumption at the top of the loop body
(src/computeRenderer/Renderer.cpp:194-201, identical in
src/render/Renderer.cpp:193-200): an if / else-if chain, so at most one
pending step is consumed per tick. -/
def consumeStep (r : Renderer) : Renderer :=
  if r.shouldStepForward then
    { r.nextFrame with shouldStepForward := false }
  else if r.shouldStepBackward then
    { r.previousFrame with shouldStepBackward := false }
  else r

/-- One iteration of Renderer::renderLoop of the compute variant
(src/computeRenderer/Renderer.cpp:193-227), entered with `running`
true.  `elapsed` is the boolean value of `elapsedTime >= frameTime`.
Returns the state after the iteration and the list of GPU actions the
iteration performed (processImageWithCompute, renderProcessedImage,
eglSwapBuffers), assuming the GL handles built by `start` are valid. -/
def renderTick (elapsed : Bool) (r : Renderer) : Renderer × List FrameAction :=
  let r1 := consumeStep r
  if !r1.paused || r1.shouldStepForward || r1.shouldStepBackward then
    let r2 := if !r1.paused && elapsed then r1.nextFrame else r1
    (r2, [.transform, .composite, .present])
  else
    (r1, [])

/-- One iteration of Renderer::renderLoop of the simple variant
(src/render/Renderer.cpp:192-233): after step handling and the paced
advance, it always clears, draws the textured quad and swaps buffers. -/
def renderTickSimple (elapsed : Bool) (r : Renderer) : Renderer × List FrameAction :=
  let r1 := consumeStep r
  let r2 := if elapsed && !r1.paused then r1.nextFrame else r1
  (r2, [.composite, .present])

/-- Oracle for one Renderer::compileShader call
(src/computeRenderer/Renderer.cpp:298-323): whether glCreateShader
returns a handle, and whether compilation succeeds. -/
structure CompileOracle where
  okCreateShader : Bool
  okCompile : Bool
  deriving DecidableEq, Repr

/-- Renderer::compileShader (src/computeRenderer/Renderer.cpp:298-323)
as a transformer of the live-object counters: returns 0 on failure, a
nonzero handle on success.  On compile failure the shader just created
is deleted before returning 0. -/
def compileShader (o : CompileOracle) (g : GlObjects) : Nat × GlObjects :=
  if !o.okCreateShader then (0, g)
  else
    let g1 := { g with shaders := g.shaders + 1 }
    if !o.okCompile then (0, { g1 with shaders := g1.shaders - 1 })
    else (1, g1)

/-- Oracle for Renderer::createComputeShaderProgram
(src/computeRenderer/Renderer.cpp:325-361). -/
structure ProgramOracle where
  compute : CompileOracle
  okCreateProgram : Bool
  okLink : Bool
  deriving DecidableEq, Repr

/-- Renderer::createComputeShaderProgram
(src/computeRenderer/Renderer.cpp:325-361): compile the compute
shader, create a program, link, then detach and delete the shader.
Every failure path deletes whatever the function had created so far and
returns 0. -/
def createComputeShaderProgram (o : ProgramOracle) (g : GlObjects) :
    Nat × GlObjects :=
  let (sh, g1) := compileShader o.compute g
  if sh = 0 then (0, g1)
  else if !o.okCreateProgram then
    (0, { g1 with shaders := g1.shaders - 1 })
  else
    let g2 := { g1 with programs := g1.programs + 1 }
    if !o.okLink then
      (0, { g2 with programs := g2.programs - 1, shaders := g2.shaders - 1 })
    else
      (1, { g2 with shaders := g2.shaders - 1 })

/-- Oracle for Renderer::createRenderShaderProgram
(src/computeRenderer/Renderer.cpp:363-410). -/
structure RenderProgramOracle where
  vertex : CompileOracle
  fragment : CompileOracle
  okCreateProgram : Bool
  okLink : Bool
  deriving DecidableEq, Repr

/-- Renderer::createRenderShaderProgram
(src/computeRenderer/Renderer.cpp:363-410): compile vertex and fragment
shaders, create, link; on any failure delete the resources created so
far and return 0; on success detach and delete both shaders. -/
def createRenderShaderProgram (o : RenderProgramOracle) (g : GlObjects) :
    Nat × GlObjects :=
  let (vs, g1) := compileShader o.vertex g
  if vs = 0 then (0, g1)
  else
    let (fs, g2) := compileShader o.fragment g1
    if fs = 0 then (0, { g2 with shaders := g2.shaders - 1 })
    else if !o.okCreateProgram then
      (0, { g2 with shaders := g2.shaders - 2 })
    else
      let g3 := { g2 with programs := g2.programs + 1 }
      if !o.okLink then
        (0, { g3 with programs := g3.programs - 1, shaders := g3.shaders - 2 })
      else
        (1, { g3 with shaders := g3.shaders - 2 })

/-- Oracle for Renderer::initializeGL
(src/computeRenderer/Renderer.cpp:237-288). -/
structure InitOracle where
  okMakeCurrent : Bool
  computeProg : ProgramOracle
  renderProg : RenderProgramOracle
  deriving DecidableEq, Repr

/-- Renderer::initializeGL (src/computeRenderer/Renderer.cpp:237-288):
bind the context, build the compute program, build the render program,
create the input and output textures.  A failed program build returns
false without deleting the programs built earlier in the call (they
stay owned by the context). -/
def initGL (o : InitOracle) (g : GlObjects) : Bool × GlObjects :=
  if !o.okMakeCurrent then (false, g)
  else
    let (cp, g1) := createComputeShaderProgram o.computeProg g
    if cp = 0 then (false, g1)
    else
      let (rp, g2) := createRenderShaderProgram o.renderProg g1
      if rp = 0 then (false, g2)
      else (true, { g2 with textures := g2.textures + 2 })

/-- Oracle for the fallible EGL/GL calls of Renderer::start
(src/computeRenderer/Renderer.cpp:20-118). -/
structure StartOracle where
  okGetDisplay : Bool
  okInitEGL : Bool
  okChooseConfig : Bool
  okCreateSurface : Bool
  okCreateContext : Bool
  init : InitOracle
  deriving DecidableEq, Repr

/-- Renderer::start (src/computeRenderer/Renderer.cpp:20-118).  If
already running it returns true at once.  Otherwise it acquires the
display, surface and context in order, runs `initGL`, and on any
failure tears down exactly the resources the code destroys on that
path before returning false; on success it sets `running`. -/
def start (r : Renderer) (o : Renderer.StartOracle) : Bool × Renderer :=
  if r.running then (true, r)
  else if !o.okGetDisplay then (false, r)
  else if !o.okInitEGL then (false, r)
  else
    let w := { r.world with displayInit := true }
    if !o.okChooseConfig then
      (false, { r with world := { w with displayInit := false } })
    else if !o.okCreateSurface then
      (false, { r with world := { w with displayInit := false } })
    else
      let w2 := { w with surfaceLive := true }
      if !o.okCreateContext then
        (false, { r with world :=
          { w2 with surfaceLive := false, displayInit := false } })
      else
        let w3 := { w2 with contextLive := true }
        let (ok, gl) := initGL o.init w3.gl
        if !ok then
          (false, { r with world :=
            { destroyContextW { w3 with gl := gl } with
                surfaceLive := false, displayInit := false } })
        else
          (true, { r with running := true, world := { w3 with gl := gl } })

/-- One teardown call performed by Renderer::stop. -/
inductive TeardownAction where
  | destroyContext
  | destroySurface
  | terminateDisplay
  deriving DecidableEq, Repr

/-- Renderer::stop (src/computeRenderer/Renderer.cpp:120-150): returns
at once when not running; otherwise clears `running` and, when the
display is live, destroys the context and surface that are still live,
terminates the display, and resets all three handles to their null
values.  The returned list records the destruction calls made. -/
def stop (r : Renderer) : Renderer × List TeardownAction :=
  if !r.running then (r, [])
  else
    let r1 := { r with running := false }
    if r1.world.displayInit then
      let ctxActs : List TeardownAction :=
        if r1.world.contextLive then [.destroyContext] else []
      let surfActs : List TeardownAction :=
        if r1.world.surfaceLive then [.destroySurface] else []
      let w1 := if r1.world.contextLive then destroyContextW r1.world else r1.world
      let w2 := { w1 with surfaceLive := false, displayInit := false }
      ({ r1 with world := w2 }, ctxActs ++ surfActs ++ [.terminateDisplay])
    else
      (r1, [])

end Renderer

/-- The fixed statistics window, field statsResetInterval initialized
to 60 (src/computeRenderer/Renderer.cpp:11). -/
def statsResetInterval : Nat := 60

/-- The frame statistics accumulators `frameCount` and
`totalRenderTime` (milliseconds, a C++ double modelled as a rational:
every value in the claims is exactly representable). -/
structure FrameStats where
  frameCount : Nat
  totalRenderTime : ℚ
  deriving DecidableEq, Repr

/-- One emitted performance report
(src/computeRenderer/Renderer.cpp:550-556). -/
structure StatsReport where
  frames : Nat
  totalMs : ℚ
  meanMs : ℚ
  deriving DecidableEq, Repr

/-- The statistics tail of Renderer::renderProcessedImage
(src/computeRenderer/Renderer.cpp:545-561): increment `frameCount`,
add the elapsed time to `totalRenderTime`; when `frameCount` has
reached `statsResetInterval` emit the report (mean =
total / frameCount) and reset both accumulators to zero. -/
def recordFrame (st : FrameStats) (elapsedMs : ℚ) : FrameStats × Option StatsReport :=
  let st1 : FrameStats :=
    ⟨st.frameCount + 1, st.totalRenderTime + elapsedMs⟩
  if st1.frameCount ≥ statsResetInterval then
    (⟨0, 0⟩, some ⟨st1.frameCount, st1.totalRenderTime,
      st1.totalRenderTime / (st1.frameCount : ℚ)⟩)
  else
    (st1, none)

/-- The statistics state after `n` records of the same elapsed time
`x`, starting from the zero accumulators of the constructor. -/
def iterRecord (x : ℚ) : Nat → FrameStats
  | 0 => ⟨0, 0⟩
  | n + 1 => (recordFrame (iterRecord x n) x).1

/-- The work-group counts of the compute dispatch in
Renderer::processImageWithCompute
(src/computeRenderer/Renderer.cpp:475-476):
`numGroupsX = (width + 15) / 16`, `numGroupsY = (height + 15) / 16`
in integer arithmetic (the dimensions are positive GLints, so C++
integer division agrees with Nat division). -/
def dispatchGroups (width height : Nat) : Nat × Nat :=
  ((width + 15) / 16, (height + 15) / 16)

/-! ## Helper lemmas -/

/-- Iterating `nextFrame` from an in-range index adds the iteration
count modulo the sequence length and never changes the length. -/
theorem nextFrame_iterate (k : Nat) (r : Renderer) (h : 0 < r.imageCount)
    (hx : r.currentImageIndex < r.imageCount) :
    (Renderer.nextFrame^[k] r).imageCount = r.imageCount ∧
    (Renderer.nextFrame^[k] r).currentImageIndex =
      (r.currentImageIndex + k) % r.imageCount := by
  induction k with
  | zero =>
    rw [Function.iterate_zero_apply]
    exact ⟨rfl, (Nat.mod_eq_of_lt (by omega)).symm⟩
  | succ k ih =>
    obtain ⟨hc, hi⟩ := ih
    rw [Function.iterate_succ_apply']
    have hne : ¬ (Renderer.nextFrame^[k] r).imageCount = 0 := by
      rw [hc]; omega
    simp only [Renderer.nextFrame, hne, if_false]
    refine ⟨hc, ?_⟩
    rw [hc, hi, Nat.mod_add_mod, Nat.add_assoc]

/-- The accumulators after `n < 60` equal records of `x` hold the count
`n` and the sum `n * x`. -/
theorem iterRecord_below (x : ℚ) (n : Nat) (hn : n < statsResetInterval) :
    iterRecord x n = ⟨n, (n : ℚ) * x⟩ := by
  induction n with
  | zero => simp [iterRecord]
  | succ n ih =>
    have hn' : n < statsResetInterval := by omega
    rw [iterRecord, ih hn', recordFrame]
    have : ¬ n + 1 ≥ statsResetInterval := by omega
    simp only [this, if_false]
    have : ((n : ℚ) + 1) * x = (n : ℚ) * x + x := by ring
    simp [this]

/-- The fields of the state reached by the step-consumption prologue of
a loop iteration: `paused` is untouched, the forward flag is always
clear afterwards, and the backward flag survives exactly when both
flags were pending (the else-if consumed only the forward one). -/
theorem consumeStep_fields (r : Renderer) :
    (Renderer.consumeStep r).paused = r.paused ∧
    (Renderer.consumeStep r).shouldStepForward = false ∧
    (Renderer.consumeStep r).shouldStepBackward =
      (r.shouldStepForward && r.shouldStepBackward) := by
  obtain ⟨run, p, sf, sb, idx, n, w⟩ := r
  cases sf <;> cases sb <;>
    simp [Renderer.consumeStep, Renderer.nextFrame, Renderer.previousFrame,
      apply_ite Renderer.paused, apply_ite Renderer.shouldStepForward,
      apply_ite Renderer.shouldStepBackward]

/-! ## Claims -/

/-- Claim C1 is false on the compute variant: a loop iteration taken
while running but paused, with no pending step, performs no transform,
no composite and no present — `renderLoop` guards the whole render
block with `!paused || shouldStepForward || shouldStepBackward`
(src/computeRenderer/Renderer.cpp:208), so the frame is not presented
unconditionally. -/
theorem claim_C1_counterexample :
    (Renderer.renderTick true
        (Renderer.mk true true false false 0 1 emptyWorld)).2 = [] ∧
    Renderer.FrameAction.present ∉
      (Renderer.renderTick true
        (Renderer.mk true true false false 0 1 emptyWorld)).2 := by
  decide

/-- Claim C1 (amended): on every iteration of the render-thread loop
while running, the simple variant (src/render/Renderer.cpp) draws the
full-viewport quad and presents unconditionally; the compute variant
(src/computeRenderer/Renderer.cpp) runs the transform stage, the
composite stage and the present exactly on the iterations that begin
unpaused or with both step flags pending (after consuming one pending
step it is unpaused or a step flag remains pending) — an iteration
that begins paused with at most one pending step performs no stage and
no present. -/
theorem claim_C1_amended (e : Bool) (r : Renderer) :
    (Renderer.renderTick e r).2 =
      (if !r.paused || (r.shouldStepForward && r.shouldStepBackward) then
        [Renderer.FrameAction.transform, Renderer.FrameAction.composite,
          Renderer.FrameAction.present]
      else []) ∧
    (Renderer.renderTickSimple e r).2 =
      [Renderer.FrameAction.composite, Renderer.FrameAction.present] := by
  obtain ⟨hp, hf, hb⟩ := consumeStep_fields r
  refine ⟨?_, rfl⟩
  simp only [Renderer.renderTick, hp, hf, hb, Bool.or_false]
  split <;> simp_all

/-- Claim C2: whenever any GPU resource-creation step during start()
fails, start() returns false and every resource acquired earlier in
the attempt has been released: from a fresh (resource-free) renderer,
any failing run of `start` ends with the resource world empty again
(the GL objects built by a partially successful initializeGL are
released with the context `eglDestroyContext` destroys). -/
theorem claim_C2_start_failure_unwinds (r : Renderer)
    (o : Renderer.StartOracle) (hrun : r.running = false)
    (hw : r.world = emptyWorld) (hfail : (Renderer.start r o).1 = false) :
    (Renderer.start r o).2.world = emptyWorld := by
  obtain ⟨run, p, sf, sb, idx, n, w⟩ := r
  simp only at hrun hw
  subst hrun
  subst hw
  obtain ⟨d, i, c, s, ctx, init⟩ := o
  rcases hI : Renderer.initGL init ⟨0, 0, 0⟩ with ⟨ok, gl⟩
  cases d <;> cases i <;> cases c <;> cases s <;> cases ctx <;>
    cases ok <;>
    simp_all [Renderer.start, emptyWorld, destroyContextW]

/-- Witness for C2: a start attempt whose render-stage fragment shader
fails to compile returns false with no resource left allocated. -/
theorem claim_C2_start_failure_unwinds_witness :
    (Renderer.mk false false false false 0 3 emptyWorld).running = false ∧
    (Renderer.mk false false false false 0 3 emptyWorld).world = emptyWorld ∧
    (Renderer.start (Renderer.mk false false false false 0 3 emptyWorld)
        (Renderer.StartOracle.mk true true true true true
          ⟨true, ⟨⟨true, true⟩, true, true⟩,
            ⟨⟨true, true⟩, ⟨true, false⟩, true, true⟩⟩)).1 = false ∧
    (Renderer.start (Renderer.mk false false false false 0 3 emptyWorld)
        (Renderer.StartOracle.mk true true true true true
          ⟨true, ⟨⟨true, true⟩, true, true⟩,
            ⟨⟨true, true⟩, ⟨true, false⟩, true, true⟩⟩)).2.world =
      emptyWorld :=
  ⟨rfl, rfl, by decide,
   claim_C2_start_failure_unwinds
     (Renderer.mk false false false false 0 3 emptyWorld)
     (Renderer.StartOracle.mk true true true true true
       ⟨true, ⟨⟨true, true⟩, true, true⟩,
         ⟨⟨true, true⟩, ⟨true, false⟩, true, true⟩⟩)
     rfl rfl (by decide)⟩

/-- Claim C3: for every non-empty image sequence of length N, a
forward step moves `currentImageIndex` from `i` to `(i+1) mod N`, so
`k` repeated forward steps starting at 0 land on `k mod N` (visiting
`0..N-1` and returning to 0 after N steps); a backward step from index
0 yields `N-1`, and from `i > 0` yields `i-1`. -/
theorem claim_C3_index_arithmetic (r : Renderer) (k : Nat)
    (h : 0 < r.imageCount) :
    (Renderer.nextFrame r).currentImageIndex =
      (r.currentImageIndex + 1) % r.imageCount ∧
    (Renderer.nextFrame^[k]
        { r with currentImageIndex := 0 }).currentImageIndex =
      k % r.imageCount ∧
    (r.currentImageIndex = 0 →
      (Renderer.previousFrame r).currentImageIndex = r.imageCount - 1) ∧
    (0 < r.currentImageIndex →
      (Renderer.previousFrame r).currentImageIndex = r.currentImageIndex - 1) := by
  have hne : ¬ r.imageCount = 0 := by omega
  refine ⟨?_, ?_, ?_, ?_⟩
  · simp [Renderer.nextFrame, hne]
  · have := nextFrame_iterate k { r with currentImageIndex := 0 }
      (by simpa using h) (by simpa using h)
    simpa using this.2
  · intro h0
    simp [Renderer.previousFrame, hne, h0]
  · intro h0
    have h0' : ¬ r.currentImageIndex = 0 := by omega
    simp [Renderer.previousFrame, hne, h0']

/-- Witness for C3 at a sequence of length 3 and seven forward steps. -/
theorem claim_C3_index_arithmetic_witness :
    0 < (Renderer.mk true false false false 2 3 emptyWorld).imageCount ∧
    ((Renderer.nextFrame (Renderer.mk true false false false 2 3 emptyWorld)).currentImageIndex =
        ((Renderer.mk true false false false 2 3 emptyWorld).currentImageIndex + 1) %
          (Renderer.mk true false false false 2 3 emptyWorld).imageCount ∧
      (Renderer.nextFrame^[7]
          { Renderer.mk true false false false 2 3 emptyWorld with
              currentImageIndex := 0 }).currentImageIndex =
        7 % (Renderer.mk true false false false 2 3 emptyWorld).imageCount ∧
      ((Renderer.mk true false false false 2 3 emptyWorld).currentImageIndex = 0 →
        (Renderer.previousFrame
            (Renderer.mk true false false false 2 3 emptyWorld)).currentImageIndex =
          (Renderer.mk true false false false 2 3 emptyWorld).imageCount - 1) ∧
      (0 < (Renderer.mk true false false false 2 3 emptyWorld).currentImageIndex →
        (Renderer.previousFrame
            (Renderer.mk true false false false 2 3 emptyWorld)).currentImageIndex =
          (Renderer.mk true false false false 2 3 emptyWorld).currentImageIndex - 1)) :=
  ⟨by decide,
   claim_C3_index_arithmetic (Renderer.mk true false false false 2 3 emptyWorld) 7
     (by decide)⟩

/-- Claim C4 is false in its last clause: a pending step set while
paused is honored by the loop even after `togglePause` has resumed
playback — starting paused at index 0 of a 3-image sequence, calling
stepForward then togglePause leaves `paused = false` with the forward
flag still set, and the next loop iteration (with the pacing test
false) consumes it and advances `currentImageIndex` to 1 while the
renderer is not paused. -/
theorem claim_C4_counterexample :
    (Renderer.togglePause (Renderer.stepForward
        (Renderer.mk true true false false 0 3 emptyWorld))).paused = false ∧
    (Renderer.togglePause (Renderer.stepForward
        (Renderer.mk true true false false 0 3 emptyWorld))).shouldStepForward
      = true ∧
    (Renderer.renderTick false (Renderer.togglePause (Renderer.stepForward
        (Renderer.mk true true false false 0 3 emptyWorld)))).1.currentImageIndex
      = 1 := by
  decide

/-- Claim C4 (amended): a step request issued while not paused sets no
pending-step flag and leaves the renderer (hence `currentImageIndex`)
entirely unchanged; pending flags — settable only while paused — are
consumed by the loop regardless of the paused flag at the consuming
iteration: a pending forward flag is consumed at the next iteration,
advancing the index by one modulo N; a pending backward flag with no
forward flag is consumed at the next iteration, stepping the index
back (0 wraps to N-1); and when both flags are pending the else-if
consumes only the forward one, so the backward flag survives exactly
one iteration and is consumed at the following one. -/
theorem claim_C4_amended (r : Renderer) :
    (r.paused = false →
      Renderer.stepForward r = r ∧ Renderer.stepBackward r = r) ∧
    (r.shouldStepForward = true → 0 < r.imageCount →
      (Renderer.renderTick false r).1.shouldStepForward = false ∧
      (Renderer.renderTick false r).1.currentImageIndex =
        (r.currentImageIndex + 1) % r.imageCount) ∧
    (r.shouldStepForward = false → r.shouldStepBackward = true →
      0 < r.imageCount →
      (Renderer.renderTick false r).1.shouldStepBackward = false ∧
      (Renderer.renderTick false r).1.currentImageIndex =
        (if r.currentImageIndex = 0 then r.imageCount - 1
          else r.currentImageIndex - 1)) ∧
    (r.shouldStepForward = true → r.shouldStepBackward = true →
      0 < r.imageCount →
      (Renderer.renderTick false r).1.shouldStepBackward = true ∧
      (Renderer.renderTick false r).1.currentImageIndex =
        (r.currentImageIndex + 1) % r.imageCount ∧
      (Renderer.renderTick false
          (Renderer.renderTick false r).1).1.shouldStepForward = false ∧
      (Renderer.renderTick false
          (Renderer.renderTick false r).1).1.shouldStepBackward = false ∧
      (Renderer.renderTick false
          (Renderer.renderTick false r).1).1.currentImageIndex =
        (if (r.currentImageIndex + 1) % r.imageCount = 0 then
          r.imageCount - 1
         else (r.currentImageIndex + 1) % r.imageCount - 1)) := by
  obtain ⟨run, p, sf, sb, idx, n, w⟩ := r
  refine ⟨?_, ?_, ?_, ?_⟩
  · intro hp
    simp only at hp
    subst hp
    constructor <;> simp [Renderer.stepForward, Renderer.stepBackward]
  · intro hf hn
    simp only at hf hn
    subst hf
    have hne : ¬ n = 0 := by omega
    cases p <;> cases sb <;>
      simp [Renderer.renderTick, Renderer.consumeStep, Renderer.nextFrame, hne]
  · intro hf hb hn
    simp only at hf hb hn
    subst hf
    subst hb
    have hne : ¬ n = 0 := by omega
    cases p <;> by_cases hidx : idx = 0 <;>
      simp [Renderer.renderTick, Renderer.consumeStep, Renderer.nextFrame,
        Renderer.previousFrame, hne, hidx]
  · intro hf hb hn
    simp only at hf hb hn
    subst hf
    subst hb
    have hne : ¬ n = 0 := by omega
    cases p <;> by_cases hidx : (idx + 1) % n = 0 <;>
      simp [Renderer.renderTick, Renderer.consumeStep, Renderer.nextFrame,
        Renderer.previousFrame, hne, hidx]

/-- Witness for the amended C4: at the race state (running, unpaused,
forward flag pending) the request functions are inert and the pending
forward flag is consumed at the next iteration; a paused renderer with
only the backward flag pending at index 0 of 3 steps back to 2 in one
iteration; a paused renderer with both flags pending at index 0 of 3
keeps the backward flag through the first iteration (index 1) and
consumes it at the second (index 0). -/
theorem claim_C4_amended_witness :
    Renderer.stepForward (Renderer.mk true false true false 0 3 emptyWorld) =
      Renderer.mk true false true false 0 3 emptyWorld ∧
    (Renderer.renderTick false
        (Renderer.mk true false true false 0 3 emptyWorld)).1.currentImageIndex
      = 1 ∧
    (Renderer.renderTick false
        (Renderer.mk true true false true 0 3 emptyWorld)).1.shouldStepBackward
      = false ∧
    (Renderer.renderTick false
        (Renderer.mk true true false true 0 3 emptyWorld)).1.currentImageIndex
      = 2 ∧
    (Renderer.renderTick false
        (Renderer.mk true true true true 0 3 emptyWorld)).1.shouldStepBackward
      = true ∧
    (Renderer.renderTick false (Renderer.renderTick false
        (Renderer.mk true true true true 0 3 emptyWorld)).1).1.shouldStepBackward
      = false ∧
    (Renderer.renderTick false (Renderer.renderTick false
        (Renderer.mk true true true true 0 3 emptyWorld)).1).1.currentImageIndex
      = 0 :=
  ⟨((claim_C4_amended (Renderer.mk true false true false 0 3 emptyWorld)).1
      rfl).1,
   ((claim_C4_amended (Renderer.mk true false true false 0 3 emptyWorld)).2.1
      rfl (by decide)).2,
   ((claim_C4_amended (Renderer.mk true true false true 0 3 emptyWorld)).2.2.1
      rfl rfl (by decide)).1,
   ((claim_C4_amended (Renderer.mk true true false true 0 3 emptyWorld)).2.2.1
      rfl rfl (by decide)).2,
   ((claim_C4_amended (Renderer.mk true true true true 0 3 emptyWorld)).2.2.2
      rfl rfl (by decide)).1,
   ((claim_C4_amended (Renderer.mk true true true true 0 3 emptyWorld)).2.2.2
      rfl rfl (by decide)).2.2.1,
   ((claim_C4_amended (Renderer.mk true true true true 0 3 emptyWorld)).2.2.2
      rfl rfl (by decide)).2.2.2.2⟩

/-- Claim C5: each record adds the elapsed time to the accumulator and
increments the frame count; when the count reaches the 60-frame window
the monitor emits the report with the mean `total / frameCount` and
resets both counters to zero.  After exactly 60 records of 2.0 the
emitted report is `{frameCount = 60, totalRenderTimeMs = 120.0,
meanMs = 2.0}` and both counters are 0 for the 61st record. -/
theorem claim_C5_performance_monitor (st : FrameStats) (x : ℚ) :
    recordFrame st x =
      (if statsResetInterval ≤ st.frameCount + 1 then
        (⟨0, 0⟩,
          some ⟨st.frameCount + 1, st.totalRenderTime + x,
            (st.totalRenderTime + x) / ((st.frameCount + 1 : Nat) : ℚ)⟩)
      else (⟨st.frameCount + 1, st.totalRenderTime + x⟩, none)) ∧
    recordFrame (iterRecord 2 59) 2 = (⟨0, 0⟩, some ⟨60, 120, 2⟩) ∧
    iterRecord 2 60 = ⟨0, 0⟩ := by
  have h59 : iterRecord 2 59 = ⟨59, (59 : ℚ) * 2⟩ :=
    iterRecord_below 2 59 (by norm_num [statsResetInterval])
  have h60 : recordFrame (iterRecord 2 59) 2 = (⟨0, 0⟩, some ⟨60, 120, 2⟩) := by
    rw [h59]
    simp only [recordFrame, statsResetInterval]
    norm_num
  refine ⟨rfl, h60, ?_⟩
  show (recordFrame (iterRecord 2 59) 2).1 = ⟨0, 0⟩
  rw [h60]

/-- Claim C6: building the compute program from a malformed transform
source returns 0 rather than a program handle, and every failure path
of the build (failed compile, failed program creation, failed link)
leaves the live shader and program counts exactly as they were — no
compiled-but-unlinked shader or created-but-unlinked program leaks. -/
theorem claim_C6_build_failure_no_leak (o : Renderer.ProgramOracle)
    (g : GlObjects) :
    (o.compute.okCompile = false →
      Renderer.createComputeShaderProgram o g = (0, g)) ∧
    ((Renderer.createComputeShaderProgram o g).1 = 0 →
      (Renderer.createComputeShaderProgram o g).2 = g) := by
  obtain ⟨⟨cs, cc⟩, cp, cl⟩ := o
  obtain ⟨s, pr, t⟩ := g
  cases cs <;> cases cc <;> cases cp <;> cases cl <;>
    simp [Renderer.createComputeShaderProgram, Renderer.compileShader]

/-- Witness for C6: a failing compile on a state holding three shaders
and one program returns 0 and leaves the counts untouched. -/
theorem claim_C6_build_failure_no_leak_witness :
    (Renderer.ProgramOracle.mk ⟨true, false⟩ true true).compute.okCompile
      = false ∧
    Renderer.createComputeShaderProgram
        (Renderer.ProgramOracle.mk ⟨true, false⟩ true true)
        (GlObjects.mk 3 1 2) =
      (0, GlObjects.mk 3 1 2) :=
  ⟨rfl,
   (claim_C6_build_failure_no_leak
      (Renderer.ProgramOracle.mk ⟨true, false⟩ true true)
      (GlObjects.mk 3 1 2)).1 rfl⟩

/-- Claim C8: teardown is idempotent — a second stop() finds `running`
already false, returns at once, performs no destruction call and
leaves the state unchanged; and a first stop() of a running renderer
with a live display resets display, surface and context to their null
values (its context destruction also releasing the context-owned GL
objects, given the ownership invariant that GL objects exist only
inside a live context). -/
theorem claim_C8_stop_idempotent (r : Renderer) :
    Renderer.stop (Renderer.stop r).1 = ((Renderer.stop r).1, []) ∧
    (r.running = true → r.world.displayInit = true →
      (r.world.contextLive = false → r.world.gl = ⟨0, 0, 0⟩) →
      (Renderer.stop r).1.world = emptyWorld ∧
      (Renderer.stop r).1.running = false) := by
  obtain ⟨run, p, sf, sb, idx, n, d, sl, cl, gl⟩ := r
  cases run <;> cases d <;> cases cl <;> cases sl <;>
    simp_all [Renderer.stop, destroyContextW, emptyWorld]

/-- Witness for C8 on a fully started renderer: the second stop is a
no-op with no destruction and the first stop empties the world. -/
theorem claim_C8_stop_idempotent_witness :
    Renderer.stop
        (Renderer.stop (Renderer.mk true false false false 0 3
          (EglWorld.mk true true true ⟨0, 2, 2⟩))).1 =
      ((Renderer.stop (Renderer.mk true false false false 0 3
          (EglWorld.mk true true true ⟨0, 2, 2⟩))).1, []) ∧
    (Renderer.stop (Renderer.mk true false false false 0 3
        (EglWorld.mk true true true ⟨0, 2, 2⟩))).1.world = emptyWorld ∧
    (Renderer.stop (Renderer.mk true false false false 0 3
        (EglWorld.mk true true true ⟨0, 2, 2⟩))).1.running = false :=
  ⟨(claim_C8_stop_idempotent (Renderer.mk true false false false 0 3
      (EglWorld.mk true true true ⟨0, 2, 2⟩))).1,
   (claim_C8_stop_idempotent (Renderer.mk true false false false 0 3
      (EglWorld.mk true true true ⟨0, 2, 2⟩))).2 rfl rfl (by decide)⟩

/-- Claim C9: togglePause is an involution on the paused flag — two
calls restore the whole state, one call flips `isPaused`. -/
theorem claim_C9_togglePause_involution (r : Renderer) :
    Renderer.togglePause (Renderer.togglePause r) = r ∧
    (Renderer.togglePause r).isPaused = !r.isPaused := by
  constructor
  · simp [Renderer.togglePause]
  · simp [Renderer.togglePause, Renderer.isPaused]

/-- Claim C7: the compute dispatch computes its work-group counts as
`(dim + 15) / 16` in integer arithmetic, and for positive dimensions
these are exactly the ceilings of `dim / 16`: the groups cover the
image and the last group is not redundant. -/
theorem claim_C7_dispatch_tiling (w h : Nat) (hw : 0 < w) (hh : 0 < h) :
    (dispatchGroups w h).1 = (w + 15) / 16 ∧
    (dispatchGroups w h).2 = (h + 15) / 16 ∧
    w ≤ (dispatchGroups w h).1 * 16 ∧
    ((dispatchGroups w h).1 - 1) * 16 < w ∧
    h ≤ (dispatchGroups w h).2 * 16 ∧
    ((dispatchGroups w h).2 - 1) * 16 < h := by
  unfold dispatchGroups
  refine ⟨rfl, rfl, ?_, ?_, ?_, ?_⟩ <;> simp only [] <;> omega

/-- Witness for C7 at a 17×1 image: 2×1 groups of 16×16 cover it. -/
theorem claim_C7_dispatch_tiling_witness :
    0 < 17 ∧ 0 < 1 ∧
    ((dispatchGroups 17 1).1 = (17 + 15) / 16 ∧
      (dispatchGroups 17 1).2 = (1 + 15) / 16 ∧
      17 ≤ (dispatchGroups 17 1).1 * 16 ∧
      ((dispatchGroups 17 1).1 - 1) * 16 < 17 ∧
      1 ≤ (dispatchGroups 17 1).2 * 16 ∧
      ((dispatchGroups 17 1).2 - 1) * 16 < 1) :=
  ⟨by decide, by decide, claim_C7_dispatch_tiling 17 1 (by decide) (by decide)⟩

/-- Claim C10: calling start() while already running returns true at
once and leaves every field of the renderer unchanged. -/
theorem claim_C10_start_while_running (r : Renderer) (o : Renderer.StartOracle)
    (h : r.running = true) :
    Renderer.start r o = (true, r) := by
  simp [Renderer.start, h]

/-- Witness for C10 on a running renderer with a fully failing oracle:
nothing is re-created. -/
theorem claim_C10_start_while_running_witness :
    (Renderer.mk true true false false 1 3
        (EglWorld.mk true true true ⟨0, 2, 2⟩)).running = true ∧
    Renderer.start
        (Renderer.mk true true false false 1 3
          (EglWorld.mk true true true ⟨0, 2, 2⟩))
        (Renderer.StartOracle.mk false false false false false
          ⟨false, ⟨⟨false, false⟩, false, false⟩,
            ⟨⟨false, false⟩, ⟨false, false⟩, false, false⟩⟩) =
      (true,
        Renderer.mk true true false false 1 3
          (EglWorld.mk true true true ⟨0, 2, 2⟩)) :=
  ⟨rfl,
   claim_C10_start_while_running
     (Renderer.mk true true false false 1 3
       (EglWorld.mk true true true ⟨0, 2, 2⟩))
     (Renderer.StartOracle.mk false false false false false
       ⟨false, ⟨⟨false, false⟩, false, false⟩,
         ⟨⟨false, false⟩, ⟨false, false⟩, false, false⟩⟩)
     rfl⟩

end ShaderDemo
